import Mathlib

/-!
Shallow embedding of `forc-tracing/src/lib.rs` (the `forc_tracing` crate):
colored console printing helpers and the tracing-subscriber configuration
performed by `init_tracing_subscriber`.

The embedding models:
* the crate's own code (`println_*`, `StdioTracingWriter`, `TracingWriterMode`,
  `TracingSubscriberOptions`, `init_tracing_subscriber`) directly from the
  source, and
* the small slice of dependency behaviour the source relies on:
  - `tracing::Level` / `tracing_subscriber::filter::LevelFilter` ordering and
    `Display` rendering (lowercase for `LevelFilter`),
  - `ansi_term::Colour::paint`, which wraps the text in the colour's ANSI
    escape sequence,
  - `tracing_subscriber::filter::EnvFilter` lossy directive parsing
    (`parse_lossy`, which drops malformed directives) and its static-directive
    `enabled` check (a record is enabled iff some directive whose target is a
    prefix of the record's target admits the record's level).
-/

namespace ForcTracing

set_option linter.unusedVariables false

/-- `tracing::Level`: severity of a log record.
In the `tracing` crate the `PartialOrd` on `Level` puts
`ERROR < WARN < INFO < DEBUG < TRACE`. -/
inductive Level where
  | TRACE
  | DEBUG
  | INFO
  | WARN
  | ERROR
deriving DecidableEq, Repr

/-- Rank realising the `tracing::Level` order `ERROR < WARN < INFO < DEBUG < TRACE`. -/
def levelRank : Level → Nat
  | .ERROR => 1
  | .WARN => 2
  | .INFO => 3
  | .DEBUG => 4
  | .TRACE => 5

/-- `tracing_subscriber::filter::LevelFilter`: a `Level` or `OFF`. -/
inductive LevelFilter where
  | OFF
  | ERROR
  | WARN
  | INFO
  | DEBUG
  | TRACE
deriving DecidableEq, Repr

/-- Rank realising the `LevelFilter` order `OFF < ERROR < ... < TRACE`:
a filter at rank `r` admits exactly the levels of rank `≤ r`. -/
def filterRank : LevelFilter → Nat
  | .OFF => 0
  | .ERROR => 1
  | .WARN => 2
  | .INFO => 3
  | .DEBUG => 4
  | .TRACE => 5

/-- `LevelFilter`'s `fmt::Display` in `tracing-core` (lowercase names). -/
def levelFilterToString : LevelFilter → String
  | .OFF => "off"
  | .ERROR => "error"
  | .WARN => "warn"
  | .INFO => "info"
  | .DEBUG => "debug"
  | .TRACE => "trace"

/-- The two process output streams a record can be routed to. -/
inductive StdStream where
  | stdout
  | stderr
deriving DecidableEq, Repr

/-- `TracingWriterMode` from the source:
`Stdio` = ERROR and WARN to stderr, everything else to stdout;
`Stdout` = everything to stdout; `Stderr` = everything to stderr. -/
inductive TracingWriterMode where
  | Stdio
  | Stdout
  | Stderr
deriving DecidableEq, Repr

/-- `StdioTracingWriter` from the source: holds the configured routing mode. -/
structure StdioTracingWriter where
  writer_mode : TracingWriterMode
deriving DecidableEq, Repr

/-- `StdioTracingWriter::make_writer` (no metadata available):
stderr when the mode is `Stderr`, otherwise stdout. -/
def StdioTracingWriter.make_writer (w : StdioTracingWriter) : StdStream :=
  if w.writer_mode = TracingWriterMode.Stderr then StdStream.stderr else StdStream.stdout

/-- `StdioTracingWriter::make_writer_for`: per-record writer selection from the
record's severity. The source test `meta.level() <= &Level::WARN` holds exactly
for `WARN` and `ERROR` under `tracing`'s level order. -/
def StdioTracingWriter.make_writer_for (w : StdioTracingWriter) (meta_level : Level) : StdStream :=
  if w.writer_mode = TracingWriterMode.Stderr ∨
      (w.writer_mode = TracingWriterMode.Stdio ∧ levelRank meta_level ≤ levelRank Level.WARN) then
    StdStream.stderr
  else
    StdStream.stdout

/-- `ansi_term::Colour` (the three variants used by the source). -/
inductive Colour where
  | Red
  | Green
  | Yellow
deriving DecidableEq, Repr

/-- The ANSI escape prefix written by `ansi_term` when painting in the given
colour (`ESC [ <fg-code> m`; Red = 31, Green = 32, Yellow = 33). -/
def colourPrefix : Colour → String
  | .Red => "\x1b[31m"
  | .Green => "\x1b[32m"
  | .Yellow => "\x1b[33m"

/-- `ansi_term::Colour::paint` as rendered through `format!("{}", ...)`:
the colour's escape prefix, the text unmodified, then the reset sequence. -/
def Colour.paint (c : Colour) (txt : String) : String :=
  colourPrefix c ++ txt ++ "\x1b[0m"

/-- A log record as produced by the `tracing::info!` / `tracing::error!`
macro calls in the source: a severity and a message string. -/
structure LogRecord where
  level : Level
  message : String
deriving DecidableEq, Repr

/-- `println_std_out` from the source: `tracing::info!("{}", color.paint(txt))`. -/
def println_std_out (txt : String) (color : Colour) : LogRecord :=
  { level := Level.INFO, message := color.paint txt }

/-- `println_std_err` from the source: `tracing::error!("{}", color.paint(txt))`. -/
def println_std_err (txt : String) (color : Colour) : LogRecord :=
  { level := Level.ERROR, message := color.paint txt }

/-- `println_red` from the source. -/
def println_red (txt : String) : LogRecord :=
  println_std_out txt Colour.Red

/-- `println_green` from the source. -/
def println_green (txt : String) : LogRecord :=
  println_std_out txt Colour.Green

/-- `println_yellow_err` from the source. -/
def println_yellow_err (txt : String) : LogRecord :=
  println_std_err txt Colour.Yellow

/-- `println_red_err` from the source. -/
def println_red_err (txt : String) : LogRecord :=
  println_std_err txt Colour.Red

/-- The `tracing-subscriber` fmt layer writes the record's message bytes
verbatim; the `with_ansi` flag only controls the formatter's own decorations
(severity label, target, ...), which the source disables anyway
(`with_level(false)`, `with_target(false)`, ...). So the rendered message text
is the record's message, independent of the ansi flag. -/
def renderedMessage (ansi : Bool) (r : LogRecord) : String :=
  r.message

/-- Whether a string contains the ANSI escape byte `ESC` (0x1b). -/
def containsEsc (s : String) : Bool :=
  s.data.any fun c => c = Char.ofNat 27

/-- `TracingSubscriberOptions` from the source (all fields optional). -/
structure TracingSubscriberOptions where
  verbosity : Option Nat
  silent : Option Bool
  log_level : Option LevelFilter
  writer_mode : Option TracingWriterMode
  ansi : Option Bool
  display_time : Option Bool
deriving DecidableEq, Repr

/-- `#[derive(Default)]` on `TracingSubscriberOptions`: every field `None`. -/
def TracingSubscriberOptions.default : TracingSubscriberOptions :=
  { verbosity := none, silent := none, log_level := none,
    writer_mode := none, ansi := none, display_time := none }

/-- The `level_filter` resolution at the top of `init_tracing_subscriber`:
`options.log_level.or(match options.verbosity { Some(1) => DEBUG, Some(2) => TRACE, _ => None })`. -/
def level_filter (options : TracingSubscriberOptions) : Option LevelFilter :=
  Option.or options.log_level
    (match options.verbosity with
      | some 1 => some LevelFilter.DEBUG
      | some 2 => some LevelFilter.TRACE
      | _ => none)

/-- The `EnvFilter` value built by `init_tracing_subscriber`, kept symbolic:
either parsed from an explicit directive string (`EnvFilter::new` /
`parse_lossy`, both lossy) or built from the environment alone
(`from_env_lossy`). -/
inductive EnvFilterSpec where
  | parsed (expr : String)
  | fromEnv (rust_log : Option String)
deriving DecidableEq, Repr

/-- The `env_filter` computation of `init_tracing_subscriber` (lines 106-121),
with the `RUST_LOG` environment variable passed in explicitly as
`rust_log : Option String`. -/
def env_filter (rust_log : Option String) (options : TracingSubscriberOptions) : EnvFilterSpec :=
  match level_filter options with
  | some lf =>
      if (options.silent.getD false) = true then
        EnvFilterSpec.parsed (levelFilterToString LevelFilter.OFF)
      else
        let env_log_level := rust_log.getD (levelFilterToString LevelFilter.INFO)
        EnvFilterSpec.parsed
          (env_log_level ++ ",forc=" ++ levelFilterToString lf
            ++ ",sway=" ++ levelFilterToString lf
            ++ ",test=" ++ levelFilterToString lf)
  | none => EnvFilterSpec.fromEnv rust_log

/-- Splitting a character list at every `','` (how `EnvFilter` splits a
directive string into directives). Always returns at least one chunk. -/
def splitComma : List Char → List (List Char)
  | [] => [[]]
  | c :: rest =>
      if c = ',' then [] :: splitComma rest
      else
        match splitComma rest with
        | [] => [[c]]
        | t :: ts => (c :: t) :: ts

/-- The level token grammar of `EnvFilter` directives: the case-insensitive
level names and the numeric aliases `0`-`5`. -/
def levelOfString (s : String) : Option LevelFilter :=
  let t := String.mk (s.data.map Char.toLower)
  if t = "off" ∨ t = "0" then some LevelFilter.OFF
  else if t = "error" ∨ t = "1" then some LevelFilter.ERROR
  else if t = "warn" ∨ t = "2" then some LevelFilter.WARN
  else if t = "info" ∨ t = "3" then some LevelFilter.INFO
  else if t = "debug" ∨ t = "4" then some LevelFilter.DEBUG
  else if t = "trace" ∨ t = "5" then some LevelFilter.TRACE
  else none

/-- Characters allowed in an `EnvFilter` directive target (`[\w:-]`). -/
def isTargetChar (c : Char) : Bool :=
  c.isAlphanum || c = '_' || c = ':' || c = '-'

/-- A static `EnvFilter` directive: an optional target prefix and the maximal
admitted level. -/
structure Directive where
  target : Option String
  level : LevelFilter
deriving DecidableEq, Repr

/-- Splitting a directive chunk at its first `'='`, if any. -/
def splitEq : List Char → Option (List Char × List Char)
  | [] => none
  | c :: rest =>
      if c = '=' then some ([], rest)
      else (splitEq rest).map fun p => (c :: p.1, p.2)

/-- Parsing one `EnvFilter` directive chunk. Modelled from the
`tracing-subscriber` dependency for the directive forms this crate can
produce: `target=level`, a bare `level` (a default directive), or a bare
`target` (admitting every level for that target). Span/field directive forms
are not used by this crate and are treated as invalid. A malformed chunk
yields `none` and is dropped by the lossy parse. -/
def parseDirective (chunk : List Char) : Option Directive :=
  match splitEq chunk with
  | some (t, l) =>
      if !t.isEmpty && t.all isTargetChar then
        (levelOfString (String.mk l)).map fun lv => { target := some (String.mk t), level := lv }
      else none
  | none =>
      match levelOfString (String.mk chunk) with
      | some lv => some { target := none, level := lv }
      | none =>
          if !chunk.isEmpty && chunk.all isTargetChar then
            some { target := some (String.mk chunk), level := LevelFilter.TRACE }
          else none

/-- `EnvFilter`'s lossy parse (`EnvFilter::new` / `parse_lossy`): split the
string on commas, parse each chunk, and silently drop the malformed ones. -/
def parse_lossy (s : String) : List Directive :=
  (splitComma s.data).filterMap parseDirective

/-- Whether a directive's target matches a record's target: a directive with
no target matches everything; a directive target matches by string prefix
(`starts_with` in the dependency's static-directive matching). -/
def matchesTarget : Option String → String → Bool
  | none, _ => true
  | some p, t => p.data.isPrefixOf t.data

/-- The static-directive `enabled` check of `EnvFilter`: a record with the
given target and level is enabled iff some matching directive admits the
level. -/
def enabled (ds : List Directive) (target : String) (l : Level) : Bool :=
  ds.any fun d => matchesTarget d.target target && decide (levelRank l ≤ filterRank d.level)

/-- The configuration installed by `init_tracing_subscriber`: the filter, the
ansi flag, the routing mode and the timestamp flag, with the source's
`unwrap_or` defaults. -/
structure SubscriberConfig where
  filter : EnvFilterSpec
  ansi : Bool
  writer_mode : TracingWriterMode
  display_time : Bool
deriving DecidableEq, Repr

/-- `init_tracing_subscriber` from the source, as the configuration it
installs. The Rust function returns `()` and has no error path: every input
produces a configuration. -/
def init_tracing_subscriber (rust_log : Option String)
    (options : TracingSubscriberOptions) : SubscriberConfig :=
  { filter := env_filter rust_log options,
    ansi := options.ansi.getD false,
    writer_mode := options.writer_mode.getD TracingWriterMode.Stdio,
    display_time := options.display_time.getD false }

/-! ### Helper lemmas -/

theorem data_append (a b : String) : (a ++ b).data = a.data ++ b.data := by
  cases a; cases b; rfl

theorem splitComma_ne_nil (l : List Char) : splitComma l ≠ [] := by
  induction l with
  | nil => simp [splitComma]
  | cons c rest ih =>
      simp only [splitComma]
      split
      · simp
      · split
        · simp
        · simp

theorem splitComma_append (a b : List Char) :
    splitComma (a ++ ',' :: b) = splitComma a ++ splitComma b := by
  induction a with
  | nil => simp [splitComma]
  | cons c a ih =>
      by_cases hc : c = ','
      · subst hc
        simp [List.cons_append, splitComma, ih]
      · obtain ⟨t, ts, h⟩ : ∃ t ts, splitComma a = t :: ts := by
          cases h' : splitComma a with
          | nil => exact absurd h' (splitComma_ne_nil a)
          | cons t ts => exact ⟨t, ts, rfl⟩
        simp only [List.cons_append, splitComma, if_neg hc]
        rw [show splitComma (a.append (',' :: b)) = splitComma a ++ splitComma b from ih, h]
        simp

theorem parse_lossy_comma_append (a b : String) :
    parse_lossy (a ++ "," ++ b) = parse_lossy a ++ parse_lossy b := by
  unfold parse_lossy
  have h : (a ++ "," ++ b).data = a.data ++ ',' :: b.data := by
    rw [data_append, data_append]
    simp [List.append_assoc]
  rw [h, splitComma_append, List.filterMap_append]

theorem parse_toolchain_tail (lf : LevelFilter) :
    parse_lossy ("forc=" ++ levelFilterToString lf ++ ",sway=" ++ levelFilterToString lf
        ++ ",test=" ++ levelFilterToString lf)
      = [{ target := some "forc", level := lf }, { target := some "sway", level := lf },
         { target := some "test", level := lf }] := by
  cases lf <;> decide

theorem composite_expr_eq (base : String) (s : String) :
    base ++ ",forc=" ++ s ++ ",sway=" ++ s ++ ",test=" ++ s
      = base ++ "," ++ ("forc=" ++ s ++ ",sway=" ++ s ++ ",test=" ++ s) := by
  have hmk : ∀ x y : String, x ++ y = String.mk (x.data ++ y.data) := by
    intro x y
    cases x; cases y; rfl
  simp only [hmk]
  simp [List.append_assoc]

theorem parse_composite (base : String) (lf : LevelFilter) :
    parse_lossy (base ++ ",forc=" ++ levelFilterToString lf ++ ",sway=" ++ levelFilterToString lf
        ++ ",test=" ++ levelFilterToString lf)
      = parse_lossy base
        ++ [{ target := some "forc", level := lf }, { target := some "sway", level := lf },
            { target := some "test", level := lf }] := by
  rw [composite_expr_eq, parse_lossy_comma_append, parse_toolchain_tail]

theorem enabled_append (ds1 ds2 : List Directive) (t : String) (l : Level) :
    enabled (ds1 ++ ds2) t l = (enabled ds1 t l || enabled ds2 t l) := by
  simp [enabled]

theorem enabled_toolchain_of_not_prefix (lf : LevelFilter) (t : String) (l : Level)
    (hf : matchesTarget (some "forc") t = false)
    (hs : matchesTarget (some "sway") t = false)
    (ht : matchesTarget (some "test") t = false) :
    enabled [{ target := some "forc", level := lf }, { target := some "sway", level := lf },
             { target := some "test", level := lf }] t l = false := by
  simp [enabled, hf, hs, ht]

/-! ### Claim theorems -/

/-- Claim C1: under the default `Stdio` mode (split by severity) the writer
selection routes WARN and ERROR records to stderr and INFO/DEBUG/TRACE records
to stdout; under `Stdout` every record goes to stdout; under `Stderr` every
record goes to stderr; and `Stdio` is the default routing mode. -/
theorem C1_writer_routing :
    (∀ l : Level,
      StdioTracingWriter.make_writer_for { writer_mode := TracingWriterMode.Stdout } l
          = StdStream.stdout ∧
      StdioTracingWriter.make_writer_for { writer_mode := TracingWriterMode.Stderr } l
          = StdStream.stderr ∧
      StdioTracingWriter.make_writer_for { writer_mode := TracingWriterMode.Stdio } l
          = (if l = Level.WARN ∨ l = Level.ERROR then StdStream.stderr else StdStream.stdout)) ∧
    (init_tracing_subscriber none TracingSubscriberOptions.default).writer_mode
        = TracingWriterMode.Stdio := by
  constructor
  · intro l
    cases l <;> exact ⟨by decide, by decide, by decide⟩
  · rfl

/-- Claim C2 counterexample: a verbosity of 3 (a value `≥ 3`) resolves to no
minimum severity at all (deferring to the environment), not to trace as the
claim states. -/
theorem C2_counterexample :
    level_filter { TracingSubscriberOptions.default with verbosity := some 3 } = none ∧
    level_filter { TracingSubscriberOptions.default with verbosity := some 3 }
        ≠ some LevelFilter.TRACE :=
  ⟨rfl, by decide⟩

/-- Claim C2 amended: with `log_level` unset, verbosity 1 resolves to debug and
verbosity 2 resolves to trace; every other verbosity value (unset, 0, or any
value other than 1 and 2, in particular every value `≥ 3`) resolves no minimum
severity and defers to the environment. -/
theorem C2_amended_verbosity_resolution (v : Nat) (h1 : v ≠ 1) (h2 : v ≠ 2) :
    level_filter { TracingSubscriberOptions.default with verbosity := none } = none ∧
    level_filter { TracingSubscriberOptions.default with verbosity := some 0 } = none ∧
    level_filter { TracingSubscriberOptions.default with verbosity := some 1 }
        = some LevelFilter.DEBUG ∧
    level_filter { TracingSubscriberOptions.default with verbosity := some 2 }
        = some LevelFilter.TRACE ∧
    level_filter { TracingSubscriberOptions.default with verbosity := some v } = none := by
  refine ⟨rfl, rfl, rfl, rfl, ?_⟩
  rcases v with _ | _ | _ | w
  · rfl
  · exact absurd rfl h1
  · exact absurd rfl h2
  · rfl

/-- Claim C2 amended, witness at verbosity 5. -/
theorem C2_amended_witness :
    level_filter { TracingSubscriberOptions.default with verbosity := some 5 } = none :=
  (C2_amended_verbosity_resolution 5 (by decide) (by decide)).2.2.2.2

/-- Claim C3: when a minimum severity `L` is resolved and `silent` is not set
to true, the installed filter is the composite expression
`<base>,forc=L,sway=L,test=L` with `<base>` the raw `RUST_LOG` value
(defaulting to `info` when unset); its parse is the base's directives followed
by the three toolchain-prefix directives at level `L`, so a record whose
target matches none of the three toolchain prefixes is governed by the base
expression alone. -/
theorem C3_composite_filter (rust_log : Option String) (o : TracingSubscriberOptions)
    (L : LevelFilter) (h1 : level_filter o = some L) (h2 : o.silent.getD false = false) :
    env_filter rust_log o
      = EnvFilterSpec.parsed ((rust_log.getD "info") ++ ",forc=" ++ levelFilterToString L
          ++ ",sway=" ++ levelFilterToString L ++ ",test=" ++ levelFilterToString L) ∧
    parse_lossy ((rust_log.getD "info") ++ ",forc=" ++ levelFilterToString L
          ++ ",sway=" ++ levelFilterToString L ++ ",test=" ++ levelFilterToString L)
      = parse_lossy (rust_log.getD "info")
        ++ [{ target := some "forc", level := L }, { target := some "sway", level := L },
            { target := some "test", level := L }] ∧
    ∀ (t : String) (l : Level),
      matchesTarget (some "forc") t = false →
      matchesTarget (some "sway") t = false →
      matchesTarget (some "test") t = false →
      enabled (parse_lossy ((rust_log.getD "info") ++ ",forc=" ++ levelFilterToString L
            ++ ",sway=" ++ levelFilterToString L ++ ",test=" ++ levelFilterToString L)) t l
        = enabled (parse_lossy (rust_log.getD "info")) t l := by
  refine ⟨?_, parse_composite _ _, ?_⟩
  · unfold env_filter
    rw [h1]
    simp [h2, levelFilterToString]
  · intro t l hf hs ht
    rw [parse_composite, enabled_append, enabled_toolchain_of_not_prefix L t l hf hs ht]
    simp

/-- Claim C3 witness: `RUST_LOG=warn` with an explicit trace log level yields
the composite expression `warn,forc=trace,sway=trace,test=trace`. -/
theorem C3_witness :
    env_filter (some "warn")
        { TracingSubscriberOptions.default with log_level := some LevelFilter.TRACE }
      = EnvFilterSpec.parsed "warn,forc=trace,sway=trace,test=trace" :=
  (C3_composite_filter (some "warn")
    { TracingSubscriberOptions.default with log_level := some LevelFilter.TRACE }
    LevelFilter.TRACE rfl rfl).1

/-- Claim C4: when a minimum severity is resolved and `silent` is true, the
installed filter is the `off` expression, under which no record of any
severity at any target is enabled. -/
theorem C4_silent_off (rust_log : Option String) (o : TracingSubscriberOptions)
    (L : LevelFilter) (h1 : level_filter o = some L) (h2 : o.silent = some true) :
    env_filter rust_log o = EnvFilterSpec.parsed "off" ∧
    ∀ (t : String) (l : Level), enabled (parse_lossy "off") t l = false := by
  constructor
  · unfold env_filter
    rw [h1]
    simp [h2, levelFilterToString]
  · intro t l
    have hp : parse_lossy "off" = [{ target := none, level := LevelFilter.OFF }] := by decide
    rw [hp]
    cases l <;> rfl

/-- Claim C4 witness: verbosity 1 with `silent = true` installs the `off`
filter. -/
theorem C4_witness :
    env_filter none
        { TracingSubscriberOptions.default with verbosity := some 1, silent := some true }
      = EnvFilterSpec.parsed "off" :=
  (C4_silent_off none
    { TracingSubscriberOptions.default with verbosity := some 1, silent := some true }
    LevelFilter.DEBUG rfl rfl).1

/-- Claim C5 counterexample: with `verbosity = 1`, `silent` unset and
`RUST_LOG` unset, the filter expression is
`info,forc=debug,sway=debug,test=debug` (the base defaults to `info`), which
differs from the claimed literal `debug,forc=debug,sway=debug,test=debug`. -/
theorem C5_counterexample :
    env_filter none { TracingSubscriberOptions.default with verbosity := some 1 }
      = EnvFilterSpec.parsed "info,forc=debug,sway=debug,test=debug" ∧
    EnvFilterSpec.parsed "info,forc=debug,sway=debug,test=debug"
      ≠ EnvFilterSpec.parsed "debug,forc=debug,sway=debug,test=debug" := by
  exact ⟨by decide, by decide⟩

/-- Claim C5 amended: with `verbosity = 1`, `silent` unset and `RUST_LOG`
unset, the effective filter resolves to the literal expression
`info,forc=debug,sway=debug,test=debug`; under this filter a log call from a
non-listed dependency (e.g. target `hyper`) at debug severity is suppressed
while one from a toolchain package (e.g. target `forc_pkg`) at debug severity
is emitted. -/
theorem C5_amended_scenario :
    env_filter none { TracingSubscriberOptions.default with verbosity := some 1 }
      = EnvFilterSpec.parsed "info,forc=debug,sway=debug,test=debug" ∧
    enabled (parse_lossy "info,forc=debug,sway=debug,test=debug") "hyper" Level.DEBUG = false ∧
    enabled (parse_lossy "info,forc=debug,sway=debug,test=debug") "forc_pkg" Level.DEBUG = true := by
  exact ⟨by decide, by decide, by decide⟩

/-- Claim C6: an explicit `log_level` always takes precedence over
`verbosity`: whenever `options.log_level = some X`, the resolved minimum
severity is `X`. -/
theorem C6_log_level_precedence (o : TracingSubscriberOptions) (X : LevelFilter)
    (h : o.log_level = some X) : level_filter o = some X := by
  unfold level_filter
  rw [h]
  rfl

/-- Claim C6 witness: an explicit WARN level wins over verbosity 2. -/
theorem C6_witness :
    level_filter
        { TracingSubscriberOptions.default with
            verbosity := some 2, log_level := some LevelFilter.WARN }
      = some LevelFilter.WARN :=
  C6_log_level_precedence
    { TracingSubscriberOptions.default with
        verbosity := some 2, log_level := some LevelFilter.WARN }
    LevelFilter.WARN rfl

/-- Claim C7 counterexample: a malformed `RUST_LOG` directive
(`forc=verbose`) does not make configuration fail; `init_tracing_subscriber`
still installs a configuration, and the lossy parse drops the malformed
directive while keeping the valid ones — configuration proceeds with a
partially parsed filter, contradicting the claimed fatal startup error. -/
theorem C7_counterexample :
    init_tracing_subscriber (some "forc=verbose")
        { TracingSubscriberOptions.default with verbosity := some 1 }
      = { filter := EnvFilterSpec.parsed "forc=verbose,forc=debug,sway=debug,test=debug",
          ansi := false, writer_mode := TracingWriterMode.Stdio, display_time := false } ∧
    parse_lossy "forc=verbose" = [] ∧
    parse_lossy "forc=verbose,forc=debug,sway=debug,test=debug"
      = [{ target := some "forc", level := LevelFilter.DEBUG },
         { target := some "sway", level := LevelFilter.DEBUG },
         { target := some "test", level := LevelFilter.DEBUG }] := by
  exact ⟨by decide, by decide, by decide⟩

/-- Claim C7 amended: malformed directives in the environment filter
expression are ignored (lossy parsing): initialization never fails, and the
installed filter is built from the remaining valid directives. For any base
whose directives are all malformed, prepended to a valid `info` directive,
the composite filter parses to exactly the valid directives. -/
theorem C7_amended_lossy (bad : String) (hbad : parse_lossy bad = [])
    (o : TracingSubscriberOptions) (h1 : level_filter o = some LevelFilter.DEBUG)
    (h2 : o.silent.getD false = false) :
    env_filter (some (bad ++ "," ++ "info")) o
      = EnvFilterSpec.parsed ((bad ++ "," ++ "info") ++ ",forc=" ++ levelFilterToString LevelFilter.DEBUG
          ++ ",sway=" ++ levelFilterToString LevelFilter.DEBUG
          ++ ",test=" ++ levelFilterToString LevelFilter.DEBUG) ∧
    parse_lossy ((bad ++ "," ++ "info") ++ ",forc=" ++ levelFilterToString LevelFilter.DEBUG
          ++ ",sway=" ++ levelFilterToString LevelFilter.DEBUG
          ++ ",test=" ++ levelFilterToString LevelFilter.DEBUG)
      = [{ target := none, level := LevelFilter.INFO },
         { target := some "forc", level := LevelFilter.DEBUG },
         { target := some "sway", level := LevelFilter.DEBUG },
         { target := some "test", level := LevelFilter.DEBUG }] := by
  constructor
  · unfold env_filter
    rw [h1]
    simp [h2, levelFilterToString]
  · rw [parse_composite, parse_lossy_comma_append, hbad]
    simp
    decide

/-- Claim C7 amended, witness with the malformed directive `forc=verbose`. -/
theorem C7_amended_witness :
    env_filter (some ("forc=verbose" ++ "," ++ "info"))
        { TracingSubscriberOptions.default with verbosity := some 1 }
      = EnvFilterSpec.parsed (("forc=verbose" ++ "," ++ "info") ++ ",forc="
          ++ levelFilterToString LevelFilter.DEBUG ++ ",sway="
          ++ levelFilterToString LevelFilter.DEBUG ++ ",test="
          ++ levelFilterToString LevelFilter.DEBUG) :=
  (C7_amended_lossy "forc=verbose" (by decide)
    { TracingSubscriberOptions.default with verbosity := some 1 } rfl rfl).1

/-- Claim C8 counterexample: with the default configuration (`ansi = false`),
printing through `println_red` still emits the ANSI escape byte: the colour is
painted into the message itself before it reaches the subscriber, so the
emitted text is not free of escape-sequence bytes. -/
theorem C8_counterexample :
    (init_tracing_subscriber none TracingSubscriberOptions.default).ansi = false ∧
    renderedMessage false (println_red "hi") ≠ "hi" ∧
    containsEsc (renderedMessage false (println_red "hi")) = true := by
  exact ⟨rfl, by decide, by decide⟩

/-- Claim C8 amended: for every input string and either value of the ansi
option, the text emitted through the four colour-wrapped print functions
always contains the colour escape sequence surrounding the original text
unmodified; the ansi option does not strip it (it only controls the
subscriber's own decorations, which are disabled). -/
theorem C8_amended_escape_always (ansi : Bool) (txt : String) :
    renderedMessage ansi (println_red txt) = "\x1b[31m" ++ txt ++ "\x1b[0m" ∧
    renderedMessage ansi (println_green txt) = "\x1b[32m" ++ txt ++ "\x1b[0m" ∧
    renderedMessage ansi (println_yellow_err txt) = "\x1b[33m" ++ txt ++ "\x1b[0m" ∧
    renderedMessage ansi (println_red_err txt) = "\x1b[31m" ++ txt ++ "\x1b[0m" :=
  ⟨rfl, rfl, rfl, rfl⟩

/-- Claim C9: each of the four printer functions emits exactly one log record
with the text wrapped in its named colour's escape sequence, at a fixed
severity: `println_green` and `println_red` at INFO, `println_red_err` and
`println_yellow_err` at ERROR. -/
theorem C9_printer_contract (txt : String) :
    println_green txt = { level := Level.INFO, message := "\x1b[32m" ++ txt ++ "\x1b[0m" } ∧
    println_red txt = { level := Level.INFO, message := "\x1b[31m" ++ txt ++ "\x1b[0m" } ∧
    println_red_err txt = { level := Level.ERROR, message := "\x1b[31m" ++ txt ++ "\x1b[0m" } ∧
    println_yellow_err txt = { level := Level.ERROR, message := "\x1b[33m" ++ txt ++ "\x1b[0m" } :=
  ⟨rfl, rfl, rfl, rfl⟩

/-- Claim C10: when `log_level` is unset and `verbosity` is neither 1 nor 2,
the built filter comes entirely from the environment and is identical for
every value of the `silent` field: `silent` has no effect when no minimum
severity was resolved. -/
theorem C10_silent_noninterference (rust_log : Option String)
    (o : TracingSubscriberOptions) (s : Option Bool) (h1 : o.log_level = none)
    (h2 : o.verbosity ≠ some 1) (h3 : o.verbosity ≠ some 2) :
    env_filter rust_log { o with silent := s } = env_filter rust_log o ∧
    env_filter rust_log o = EnvFilterSpec.fromEnv rust_log := by
  have h0 : level_filter o = none := by
    unfold level_filter
    rw [h1]
    cases hv : o.verbosity with
    | none => rfl
    | some v =>
        rcases v with _ | _ | _ | w
        · rfl
        · exact absurd hv h2
        · exact absurd hv h3
        · rfl
  have h0' : level_filter { o with silent := s } = none := h0
  constructor
  · unfold env_filter
    rw [h0', h0]
  · unfold env_filter
    rw [h0]

/-- Claim C10 witness: verbosity 3 with and without `silent = true` builds
the same, environment-derived filter. -/
theorem C10_witness :
    env_filter (some "warn")
        { TracingSubscriberOptions.default with verbosity := some 3, silent := some true }
      = env_filter (some "warn")
          { TracingSubscriberOptions.default with verbosity := some 3 } :=
  (C10_silent_noninterference (some "warn")
    { TracingSubscriberOptions.default with verbosity := some 3 } (some true)
    rfl (by decide) (by decide)).1

end ForcTracing
